import Mathlib

/-!
Shallow embedding of `data_generator.py` from the water-network simulation
repository, together with proofs of the specification claims about it.

Modelling conventions:
* Timestamps are whole minutes since 1970-01-01 00:00 (a Thursday).
  `hourOf`, `weekdayOf` (Python convention, Monday = 0) and `dayOfYearOf`
  are computed from that linear time, the latter via the standard
  civil-from-days Gregorian calendar algorithm.
* Float values are modelled as rationals.  The composite `np.sin(2·π·x)`
  is abstracted as a function parameter `sin2pi : ℚ → ℚ` (both the code
  and the spec apply the same sine to the same arguments, so every claim
  is proved for an arbitrary `sin2pi`).
* Random draws are modelled as explicit stream parameters: a Gaussian
  `np.random.normal(0, σ)` becomes `σ * ν ⟨indices⟩` for a per-record
  standard draw `ν`, and `np.random.uniform(0.8, 1.2)` in the leak
  injector becomes the per-row draw `u i`.
* Python exceptions (`KeyError` on a missing dictionary key,
  `UnboundLocalError` for the unassigned `base_pressure`, networkx's
  `NetworkXError` for a missing node) are modelled with `Except String`.
* A network is a directed graph: a list of attributed nodes plus an edge
  list.  As in `nx.DiGraph` there are no parallel edges, so the edge list
  is read as an edge set.
-/

namespace WaterSim

/-- A node of the water network with its attribute bag, as built by
`network_builder.py`: every attribute that `data_generator.py` reads is a
field, absent attributes are `none`. -/
structure Node where
  id : String
  type : Option String
  sensor_type : Option String
  attached_to : Option String
  base_demand : Option ℚ
  demand_profile : Option String
  pump_rate : Option ℚ
  current_level : Option ℚ
  capacity : Option ℚ
deriving DecidableEq

/-- A directed graph in the style of `nx.DiGraph`: attributed nodes and a
set of directed edges. -/
structure Network where
  nodes : List Node
  edges : List (String × String)
deriving DecidableEq

/-- Attribute-dictionary lookup of a node by id (`network.nodes[x]`). -/
def Network.findNode (net : Network) (x : String) : Option Node :=
  net.nodes.find? (fun n => n.id == x)

/-- `networkx` node membership: a node exists if it was added explicitly
or appears as an endpoint of an edge. -/
def Network.hasNode (net : Network) (x : String) : Bool :=
  net.nodes.any (fun n => n.id == x) || net.edges.any (fun e => e.1 == x || e.2 == x)

/-- `network.successors x`: targets of the edges leaving `x`. -/
def Network.successors (net : Network) (x : String) : List String :=
  (net.edges.filter (fun e => e.1 == x)).map Prod.snd

/-- The directed-edge relation of the network. -/
def edgeRel (net : Network) (a b : String) : Prop := (a, b) ∈ net.edges

/-- `d['k']`-style access: `KeyError` when the attribute is absent. -/
def getAttr {α : Type} (v : Option α) (key : String) : Except String α :=
  match v with
  | some a => Except.ok a
  | none => Except.error ("KeyError: " ++ key)

/-- `network.nodes[x]` with a `KeyError` when no such node record exists. -/
def getNode (net : Network) (x : String) : Except String Node :=
  match net.findNode x with
  | some nd => Except.ok nd
  | none => Except.error ("KeyError: " ++ x)

/-- `pd.date_range(start, end, freq='{m}min')`: timestamps
`start, start+m, …` up to and including `end`; empty when `start > end`. -/
def timeIndex (startT endT ivMin : ℤ) : List ℤ :=
  if startT ≤ endT then
    (List.range (((endT - startT) / ivMin).toNat + 1)).map (fun (k : ℕ) => startT + (k : ℤ) * ivMin)
  else []

/-- `timestamp.hour` for a timestamp in minutes since the epoch. -/
def hourOf (t : ℤ) : ℤ := (t.fdiv 60).emod 24

/-- Python `timestamp.weekday()`: Monday = 0 … Sunday = 6; the epoch day
1970-01-01 was a Thursday (= 3). -/
def weekdayOf (t : ℤ) : ℤ := (t.fdiv 1440 + 3).emod 7

/-- Gregorian leap-year test. -/
def isLeap (y : ℤ) : Bool := y % 4 == 0 && (y % 100 != 0 || y % 400 == 0)

/-- Days before the start of month `m` (1-based) in a non-leap year. -/
def daysBeforeMonth (m : ℤ) : ℤ :=
  if m = 1 then 0 else if m = 2 then 31 else if m = 3 then 59 else if m = 4 then 90
  else if m = 5 then 120 else if m = 6 then 151 else if m = 7 then 181 else if m = 8 then 212
  else if m = 9 then 243 else if m = 10 then 273 else if m = 11 then 304 else 334

/-- Civil date `(year, month, day)` from days since 1970-01-01
(Hinnant's algorithm). -/
def civilFromDays (z0 : ℤ) : ℤ × ℤ × ℤ :=
  let z := z0 + 719468
  let era := z.fdiv 146097
  let doe := z - era * 146097
  let yoe := (doe - doe.fdiv 1460 + doe.fdiv 36524 - doe.fdiv 146096).fdiv 365
  let y := yoe + era * 400
  let doy := doe - (365 * yoe + yoe.fdiv 4 - yoe.fdiv 100)
  let mp := (5 * doy + 2).fdiv 153
  let d := doy - (153 * mp + 2).fdiv 5 + 1
  let m := mp + (if mp < 10 then 3 else -9)
  (y + (if m ≤ 2 then 1 else 0), m, d)

/-- `timestamp.dayofyear` (1-based) for a timestamp in minutes since the
epoch. -/
def dayOfYearOf (t : ℤ) : ℤ :=
  let c := civilFromDays (t.fdiv 1440)
  daysBeforeMonth c.2.1 + (if isLeap c.1 && decide (2 < c.2.1) then 1 else 0) + c.2.2

/-- One sensor reading row of the generated table. -/
structure SensorRecord where
  timestamp : ℤ
  sensor_id : String
  attached_to : String
  sensor_type : String
  value : ℚ
deriving DecidableEq

/-- One consumption reading row of the generated table. -/
structure ConsumptionRecord where
  timestamp : ℤ
  zone_id : String
  consumption_liters_per_sec : ℚ
deriving DecidableEq

/-- Error-propagating map: builds the result list in order and aborts on
the first error, like a Python loop hitting an exception. -/
def mapE {α β : Type} (f : α → Except String β) : List α → Except String (List β)
  | [] => Except.ok []
  | a :: l =>
    match f a with
    | Except.error e => Except.error e
    | Except.ok b =>
      match mapE f l with
      | Except.error e => Except.error e
      | Except.ok bs => Except.ok (b :: bs)

/-- Error-propagating map that additionally threads a loop-local state
(the Python function-local `base_pressure`) through the iterations in
order, aborting on the first error. -/
def mapES {α β σ : Type} (f : α → σ → Except String (β × σ)) :
    List α → σ → Except String (List β)
  | [], _ => Except.ok []
  | a :: l, st =>
    match f a st with
    | Except.error e => Except.error e
    | Except.ok bs =>
      match mapES f l bs.2 with
      | Except.error e => Except.error e
      | Except.ok rest => Except.ok (bs.1 :: rest)

/-- The `downstream_demand` accumulation loop over a junction's
successors: adds `base_demand` of every successor whose `type` is
`ConsumptionZone`, propagating `KeyError`s. -/
def downstreamDemandAux (net : Network) (acc : ℚ) : List String → Except String ℚ
  | [] => Except.ok acc
  | nb :: rest =>
    match getNode net nb with
    | Except.error e => Except.error e
    | Except.ok nd =>
      match getAttr nd.type "type" with
      | Except.error e => Except.error e
      | Except.ok ty =>
        if ty = "ConsumptionZone" then
          match getAttr nd.base_demand "base_demand" with
          | Except.error e => Except.error e
          | Except.ok bd => downstreamDemandAux net (acc + bd) rest
        else downstreamDemandAux net acc rest

/-- Sum of `base_demand` over a junction's immediate `ConsumptionZone`
successors, as computed by `generate_sensor_data`. -/
def downstreamDemand (net : Network) (j : String) : Except String ℚ :=
  downstreamDemandAux net 0 (net.successors j)

/-- Base flow for a `Flow` sensor: `base_demand` for a `ConsumptionZone`,
the downstream-demand sum (with fallback 150 when it is not positive) for
a `Junction`, else `pump_rate` defaulting to 0. -/
def flowBase (net : Network) (attached : String) : Except String ℚ :=
  match getNode net attached with
  | Except.error e => Except.error e
  | Except.ok an =>
    match getAttr an.type "type" with
    | Except.error e => Except.error e
    | Except.ok ty =>
      if ty = "ConsumptionZone" then getAttr an.base_demand "base_demand"
      else if ty = "Junction" then
        match downstreamDemand net attached with
        | Except.error e => Except.error e
        | Except.ok dd => Except.ok (if 0 < dd then dd else 150)
      else Except.ok (an.pump_rate.getD 0)

/-- Base pressure by attached node type, with the Python function-local
`base_pressure` threaded through the call as `bp`: a handled node type
assigns a fresh base; any other type leaves the local untouched, so the
read raises `UnboundLocalError` when it was never assigned earlier in the
same call and silently reuses the stale value otherwise. -/
def pressureBase (net : Network) (attached : String) (bp : Option ℚ) :
    Except String ℚ :=
  match getNode net attached with
  | Except.error e => Except.error e
  | Except.ok an =>
    match getAttr an.type "type" with
    | Except.error e => Except.error e
    | Except.ok ty =>
      if ty = "ConsumptionZone" then Except.ok 400000
      else if ty = "Junction" then Except.ok 500000
      else if ty = "PumpStation" then Except.ok 600000
      else if ty = "Reservoir" then Except.ok 200000
      else
        match bp with
        | some stale => Except.ok stale
        | none => Except.error "UnboundLocalError: base_pressure"

/-- The diurnal pattern factor for flow with its bucket-specific jitter
draw (`np.random.normal(0, σ)` modelled as `σ * jitter`). -/
def patternFactor (hour : ℤ) (jitter : ℚ) : ℚ :=
  if 0 ≤ hour ∧ hour < 6 then 0.6 + 0.05 * jitter
  else if 6 ≤ hour ∧ hour < 10 then 1.2 + 0.1 * jitter
  else if 10 ≤ hour ∧ hour < 17 then 0.9 + 0.08 * jitter
  else if 17 ≤ hour ∧ hour < 22 then 1.3 + 0.1 * jitter
  else 0.7 + 0.05 * jitter

/-- The per-record sensor value synthesis of `generate_sensor_data`.
`ν 0` and `ν 1` are this record's standard-normal draws; `bp` is the
state of the function-local `base_pressure` when this record is
processed, and the second component of the result is its state
afterwards (only the Pressure branch writes it). -/
def sensorValue (net : Network) (sin2pi : ℚ → ℚ) (t : ℤ) (st attached : String)
    (ν : ℕ → ℚ) (bp : Option ℚ) : Except String (ℚ × Option ℚ) :=
  if st = "Flow" then
    match flowBase net attached with
    | Except.error e => Except.error e
    | Except.ok bf =>
      Except.ok (max 0 (bf * patternFactor (hourOf t) (ν 0) + 5 * ν 1), bp)
  else if st = "Pressure" then
    match pressureBase net attached bp with
    | Except.error e => Except.error e
    | Except.ok b => Except.ok (max 0 (b + 10000 * ν 0), some b)
  else if st = "Level" then
    if attached = "R1" then
      match getNode net "R1" with
      | Except.error e => Except.error e
      | Except.ok r1 =>
        match getAttr r1.current_level "current_level" with
        | Except.error e => Except.error e
        | Except.ok lvl =>
          match getAttr r1.capacity "capacity" with
          | Except.error e => Except.error e
          | Except.ok cap =>
            Except.ok (max 0 (min cap
              (lvl + sin2pi ((dayOfYearOf t : ℚ) / 365) * 50000 + 10000 * ν 0)), bp)
    else Except.ok (0, bp)
  else Except.ok (0, bp)

/-- One row of the sensor table: reads `sensor_type` and `attached_to`
from the sensor node, synthesizes the value, and emits the record along
with the updated `base_pressure` state. -/
def sensorRow (net : Network) (sin2pi : ℚ → ℚ) (t : ℤ) (s : Node)
    (ν : ℕ → ℚ) (bp : Option ℚ) : Except String (SensorRecord × Option ℚ) :=
  match getAttr s.sensor_type "sensor_type" with
  | Except.error e => Except.error e
  | Except.ok st =>
    match getAttr s.attached_to "attached_to" with
    | Except.error e => Except.error e
    | Except.ok att =>
      match sensorValue net sin2pi t st att ν bp with
      | Except.error e => Except.error e
      | Except.ok v => Except.ok (⟨t, s.id, att, st, v.1⟩, v.2)

/-- The nodes whose `type` attribute is `'Sensor'`. -/
def sensorNodes (net : Network) : List Node :=
  net.nodes.filter (fun n => n.type == some "Sensor")

/-- The nodes whose `type` attribute is `'ConsumptionZone'`. -/
def consumptionZones (net : Network) : List Node :=
  net.nodes.filter (fun n => n.type == some "ConsumptionZone")

/-- `generate_sensor_data`: one record per grid timestamp per sensor
node, in row-major order, with the function-local `base_pressure`
initially unassigned and threaded through the loop; `ν ti si` is the
draw stream for grid index `ti` and sensor index `si`. -/
def generate_sensor_data (net : Network) (sin2pi : ℚ → ℚ) (startT endT ivMin : ℤ)
    (ν : ℕ → ℕ → ℕ → ℚ) : Except String (List SensorRecord) :=
  mapES (fun p => sensorRow net sin2pi p.1.2 p.2.2 (ν p.1.1 p.2.1))
    ((timeIndex startT endT ivMin).enum.flatMap
      (fun tp => (sensorNodes net).enum.map (fun sp => (tp, sp))))
    none

/-- The code's `daily_factor` before the weekend adjustment. -/
def dailyFactorBase (dp : String) (hour : ℤ) : ℚ :=
  if dp = "residential" then
    if 0 ≤ hour ∧ hour < 6 then 0.5
    else if 6 ≤ hour ∧ hour < 9 then 1.5
    else if 9 ≤ hour ∧ hour < 17 then 0.8
    else if 17 ≤ hour ∧ hour < 21 then 1.8
    else 0.7
  else if dp = "commercial" then
    if 0 ≤ hour ∧ hour < 8 then 0.2
    else if 8 ≤ hour ∧ hour < 18 then 1.5
    else 0.4
  else if dp = "industrial" then
    if (0 ≤ hour ∧ hour < 7) ∨ 22 ≤ hour then 0.7 else 1.3
  else 1.0

/-- `daily_factor` after the weekend adjustment (`weekday() >= 5`). -/
def dailyFactor (dp : String) (hour wd : ℤ) : ℚ :=
  if 5 ≤ wd then
    if dp = "commercial" ∨ dp = "industrial" then dailyFactorBase dp hour * 0.7
    else if dp = "residential" then dailyFactorBase dp hour * 1.1
    else dailyFactorBase dp hour
  else dailyFactorBase dp hour

/-- One row of the consumption table for a zone at a timestamp; `ν` is
this record's standard-normal draw. -/
def consumptionRow (sin2pi : ℚ → ℚ) (t : ℤ) (z : Node) (ν : ℚ) :
    Except String ConsumptionRecord :=
  match getAttr z.base_demand "base_demand" with
  | Except.error e => Except.error e
  | Except.ok bd =>
    match getAttr z.demand_profile "demand_profile" with
    | Except.error e => Except.error e
    | Except.ok dp =>
      Except.ok ⟨t, z.id,
        max 0 (bd * dailyFactor dp (hourOf t) (weekdayOf t) *
          (1 + 0.2 * sin2pi (((dayOfYearOf t : ℚ) - 170) / 365)) + 2 * ν)⟩

/-- `generate_consumption_data`: one record per grid timestamp per
consumption zone, in row-major order. -/
def generate_consumption_data (net : Network) (sin2pi : ℚ → ℚ) (startT endT ivMin : ℤ)
    (ν : ℕ → ℕ → ℚ) : Except String (List ConsumptionRecord) :=
  mapE (fun p => consumptionRow sin2pi p.1.2 p.2.2 (ν p.1.1 p.2.1))
    ((timeIndex startT endT ivMin).enum.flatMap
      (fun tp => (consumptionZones net).enum.map (fun sp => (tp, sp))))

/-- One breadth-first expansion step towards predecessors: adds every
source of an edge whose target is already in the set. -/
def reflAncStep (net : Network) (S : Finset String) : Finset String :=
  S ∪ ((net.edges.filter (fun e => decide (e.2 ∈ S))).map Prod.fst).toFinset

/-- All nodes with a (possibly empty) directed path to `leak`: saturated
predecessor closure of `{leak}`. -/
def reflAnc (net : Network) (leak : String) : Finset String :=
  (reflAncStep net)^[net.edges.length + 1] {leak}

/-- `nx.ancestors(network, leak)`: all nodes with a directed path (of at
least one edge) to `leak`. -/
def ancestorsFin (net : Network) (leak : String) : Finset String :=
  ((net.edges.filter (fun e => decide (e.2 ∈ reflAnc net leak))).map Prod.fst).toFinset

/-- Positional map with the row index, mirroring iteration over the
data frame's default integer index. -/
def mapIdxAux {α β : Type} (f : ℕ → α → β) : ℕ → List α → List β
  | _, [] => []
  | i, a :: l => f i a :: mapIdxAux f (i + 1) l

/-- Updates the `value` field of a sensor record. -/
def setValue (r : SensorRecord) (v : ℚ) : SensorRecord :=
  ⟨r.timestamp, r.sensor_id, r.attached_to, r.sensor_type, v⟩

/-- `inject_leak_event`: `nx.ancestors` raises `NetworkXError` for an
absent leak node; otherwise every `Flow`/`Pressure` row inside the window
whose `attached_to` is upstream of (or equal to) the leak node is scaled,
with `u i` the row's fresh uniform draw. -/
def inject_leak_event (sensor_df : List SensorRecord) (net : Network) (leak : String)
    (startT endT : ℤ) (severity : ℚ) (u : ℕ → ℚ) : Except String (List SensorRecord) :=
  if net.hasNode leak then
    let upstream := ancestorsFin net leak
    Except.ok (mapIdxAux (fun i r =>
      if startT ≤ r.timestamp ∧ r.timestamp ≤ endT then
        if r.sensor_type = "Flow" ∧ (r.attached_to ∈ upstream ∨ r.attached_to = leak) then
          setValue r (r.value * (1 + severity * u i))
        else if r.sensor_type = "Pressure" ∧ (r.attached_to ∈ upstream ∨ r.attached_to = leak) then
          setValue r (r.value * (1 - severity * u i))
        else r
      else r) 0 sensor_df)
  else Except.error ("NetworkXError: The node " ++ leak ++ " is not in the graph.")

/-- The sources of the network's edges: together with the leak node they
bound every predecessor-closure iterate. -/
def edgeSources (net : Network) : Finset String := (net.edges.map Prod.fst).toFinset

/-! ### Spec-side definitions, following the wording of the claims -/

/-- The immediate successors of `j` whose `type` is `ConsumptionZone`
(the claim's "immediate successor ConsumptionZone nodes"). -/
def czSuccessors (net : Network) (j : String) : List String :=
  (net.successors j).filter (fun nb =>
    match net.findNode nb with
    | some nd => nd.type == some "ConsumptionZone"
    | none => false)

/-- The claim's "sum of base_demand over the junction's immediate
successor ConsumptionZone nodes". -/
def succCZSum (net : Network) (j : String) : ℚ :=
  ((czSuccessors net j).filterMap (fun nb =>
    (net.findNode nb).bind (fun nd => nd.base_demand))).sum

/-- Claim C4's asserted base-flow rule for junctions: the fixed default
150 exactly when there are no successor ConsumptionZone nodes, the
`base_demand` sum otherwise. -/
def claimedJunctionBaseFlow (net : Network) (j : String) : ℚ :=
  if czSuccessors net j = [] then 150 else succCZSum net j

/-- The spec's hour-bucket factor table for the named demand profiles
(claim C8), with explicit bucket bounds. -/
def specHourFactor (profile : String) (hour : ℤ) : ℚ :=
  if profile = "residential" then
    if 0 ≤ hour ∧ hour < 6 then 0.5
    else if 6 ≤ hour ∧ hour < 9 then 1.5
    else if 9 ≤ hour ∧ hour < 17 then 0.8
    else if 17 ≤ hour ∧ hour < 21 then 1.8
    else if 21 ≤ hour ∧ hour < 24 then 0.7
    else 0
  else if profile = "commercial" then
    if 0 ≤ hour ∧ hour < 8 then 0.2
    else if 8 ≤ hour ∧ hour < 18 then 1.5
    else if 18 ≤ hour ∧ hour < 24 then 0.4
    else 0
  else if profile = "industrial" then
    if (0 ≤ hour ∧ hour < 7) ∨ (22 ≤ hour ∧ hour < 24) then 0.7
    else if 7 ≤ hour ∧ hour < 22 then 1.3
    else 0
  else 0

/-- The spec's weekend multiplier (claim C8): on Saturday (5) or Sunday
(6), ×1.1 for residential and ×0.7 for commercial/industrial. -/
def specWeekendFactor (profile : String) (wd : ℤ) : ℚ :=
  if wd = 5 ∨ wd = 6 then (if profile = "residential" then 1.1 else 0.7) else 1

/-- The consumption value exactly as claim C8 words it: base_demand times
hour-bucket factor times weekend multiplier times seasonal factor, plus
Gaussian noise with σ = 2, floored at 0. -/
def specConsumptionValue (bd : ℚ) (profile : String) (hour wd : ℤ)
    (seasonal : ℚ) (noise : ℚ) : ℚ :=
  max 0 (bd * specHourFactor profile hour * specWeekendFactor profile wd * seasonal
    + 2 * noise)

end WaterSim

namespace WaterSim



/-- The claim's condition on a row for leak perturbation: timestamp in
the inclusive window, the given sensor type, and `attached_to` equal to
the leak node or having a directed path to it. -/
def leakCond (net : Network) (leak : String) (startT endT : ℤ) (ty : String)
    (r : SensorRecord) : Prop :=
  (startT ≤ r.timestamp ∧ r.timestamp ≤ endT) ∧ r.sensor_type = ty ∧
    (r.attached_to = leak ∨ Relation.TransGen (edgeRel net) r.attached_to leak)

/-! ### Concrete networks and tables used as witnesses and counterexamples -/

/-- The residential zone `Z1` of the small test network. -/
def zoneZ1 : Node :=
  ⟨"Z1", some "ConsumptionZone", none, none, some 100, some "residential", none, none, none⟩

/-- A small network: reservoir `R1` with a level sensor and one
consumption zone. -/
def netBasic : Network :=
  ⟨[⟨"R1", some "Reservoir", none, none, none, none, none, some 900000, some 1000000⟩,
    zoneZ1,
    ⟨"SL", some "Sensor", some "Level", some "R1", none, none, none, none, none⟩], []⟩

/-- A network with a pressure sensor attached to a `Valve` node: the
combination whose base pressure is never assigned. -/
def netValve : Network :=
  ⟨[⟨"V1", some "Valve", none, none, none, none, none, none, none⟩,
    ⟨"SP", some "Sensor", some "Pressure", some "V1", none, none, none, none, none⟩], []⟩

/-- A network with a Pressure sensor on a Junction listed before a
Pressure sensor on a Valve: processing the second reads the stale
`base_pressure` assigned while processing the first. -/
def netStale : Network :=
  ⟨[⟨"J1", some "Junction", none, none, none, none, none, none, none⟩,
    ⟨"V1", some "Valve", none, none, none, none, none, none, none⟩,
    ⟨"SPJ", some "Sensor", some "Pressure", some "J1", none, none, none, none, none⟩,
    ⟨"SPV", some "Sensor", some "Pressure", some "V1", none, none, none, none, none⟩],
   []⟩

/-- A network whose junction `J` has a consumption-zone successor with
zero base demand. -/
def netZeroDemand : Network :=
  ⟨[⟨"J", some "Junction", none, none, none, none, none, none, none⟩,
    ⟨"Z", some "ConsumptionZone", none, none, some 0, some "residential", none, none, none⟩,
    ⟨"SF", some "Sensor", some "Flow", some "J", none, none, none, none, none⟩],
   [("J", "Z")]⟩

/-- A network with a reservoir named `R2` carrying a level sensor: its
readings show the `'R1'` keying of level synthesis. -/
def netR2 : Network :=
  ⟨[⟨"R2", some "Reservoir", none, none, none, none, none, some 500, some 1000⟩,
    ⟨"SL2", some "Sensor", some "Level", some "R2", none, none, none, none, none⟩], []⟩

/-- A two-node network with one pipe, used to exercise leak injection. -/
def netPipe : Network :=
  ⟨[⟨"P1", some "PumpStation", none, none, none, none, some 500, none, none⟩,
    ⟨"J1", some "Junction", none, none, none, none, none, none, none⟩,
    ⟨"SF1", some "Sensor", some "Flow", some "P1", none, none, none, none, none⟩],
   [("P1", "J1")]⟩

/-- A one-row sensor table for the leak-injection witness. -/
def dfPipe : List SensorRecord := [⟨0, "SF1", "P1", "Flow", 10⟩]

end WaterSim

namespace WaterSim

/-! ### Generic lemmas about the embedding's iteration scaffolding -/

theorem mapE_ok_iff {α β : Type} {f : α → Except String β} :
    ∀ {l : List α} {ys : List β},
      mapE f l = Except.ok ys ↔ List.Forall₂ (fun a b => f a = Except.ok b) l ys := by
  intro l
  induction l with
  | nil =>
    intro ys
    constructor
    · intro h
      cases ys with
      | nil => exact List.Forall₂.nil
      | cons b ys => simp [mapE] at h
    · intro h
      cases h
      rfl
  | cons a l ih =>
    intro ys
    constructor
    · intro h
      simp only [mapE] at h
      cases hfa : f a with
      | error e => rw [hfa] at h; cases h
      | ok b =>
        rw [hfa] at h
        cases hml : mapE f l with
        | error e => rw [hml] at h; cases h
        | ok bs =>
          rw [hml] at h
          cases h
          exact List.Forall₂.cons hfa (ih.mp hml)
    · intro h
      cases h with
      | cons hab htl =>
        simp only [mapE]
        rw [hab, ih.mpr htl]

theorem Forall2_map_eq {α β γ : Type} {R : α → β → Prop} (g : β → γ) (gm : α → γ)
    (H : ∀ a b, R a b → g b = gm a) :
    ∀ {l : List α} {ys : List β}, List.Forall₂ R l ys → ys.map g = l.map gm := by
  intro l ys hf
  induction hf with
  | nil => rfl
  | cons hab _ ihh => simp only [List.map_cons, ihh, H _ _ hab]

theorem Forall2_mem_right {α β : Type} {R : α → β → Prop} {b : β} :
    ∀ {l : List α} {ys : List β}, List.Forall₂ R l ys → b ∈ ys → ∃ a ∈ l, R a b := by
  intro l ys hf hb
  induction hf with
  | nil => cases hb
  | cons hab htl ihh =>
    rcases List.mem_cons.mp hb with h | h
    · subst h; exact ⟨_, List.mem_cons_self _ _, hab⟩
    · rcases ihh h with ⟨a, ha, hr⟩
      exact ⟨a, List.mem_cons_of_mem _ ha, hr⟩

theorem map_enumFrom_snd {α γ : Type} (g : α → γ) :
    ∀ (n : ℕ) (l : List α), (List.enumFrom n l).map (fun p => g p.2) = l.map g := by
  intro n l
  induction l generalizing n with
  | nil => rfl
  | cons a l ih => simp only [List.enumFrom, List.map_cons, ih]

theorem flatMap_enumFrom {α γ : Type} (F : α → List γ) :
    ∀ (n : ℕ) (l : List α), (List.enumFrom n l).flatMap (fun p => F p.2) = l.flatMap F := by
  intro n l
  induction l generalizing n with
  | nil => rfl
  | cons a l ih => simp only [List.enumFrom, List.flatMap_cons, ih]

theorem map_pairs {α β γ : Type} (l : List α) (s : List β) (g : α → β → γ) :
    ((l.enum.flatMap (fun tp => s.enum.map (fun sp => (tp, sp)))).map
        (fun p => g p.1.2 p.2.2))
      = l.flatMap (fun a => s.map (g a)) := by
  rw [List.map_flatMap]
  show (List.enumFrom 0 l).flatMap _ = _
  rw [← flatMap_enumFrom (fun a => s.map (g a)) 0 l]
  congr 1
  funext tp
  rw [List.map_map]
  exact map_enumFrom_snd (fun b => g tp.2 b) 0 s

theorem length_flatMap_map {α β γ : Type} (l : List α) (s : List β) (g : α → β → γ) :
    (l.flatMap (fun a => s.map (g a))).length = l.length * s.length := by
  induction l with
  | nil => simp
  | cons a l ih => simp [List.flatMap_cons, ih, Nat.succ_mul, Nat.add_comm]

theorem mapES_ok_map_congr {α β σ γ : Type} {f : α → σ → Except String (β × σ)}
    (g : β → γ) (gm : α → γ)
    (H : ∀ a s1 b s2, f a s1 = Except.ok (b, s2) → g b = gm a) :
    ∀ {l : List α} {st : σ} {ys : List β}, mapES f l st = Except.ok ys →
      ys.map g = l.map gm := by
  intro l
  induction l with
  | nil =>
    intro st ys h
    simp only [mapES] at h
    cases h
    rfl
  | cons a l ih =>
    intro st ys h
    simp only [mapES] at h
    cases hfa : f a st with
    | error e => simp only [hfa] at h; cases h
    | ok p =>
      simp only [hfa] at h
      cases hml : mapES f l p.2 with
      | error e => simp only [hml] at h; cases h
      | ok rest =>
        simp only [hml] at h
        cases h
        simp only [List.map_cons, H a st p.1 p.2 hfa, ih hml]

theorem mapES_ok_mem {α β σ : Type} {f : α → σ → Except String (β × σ)} {b : β} :
    ∀ {l : List α} {st : σ} {ys : List β}, mapES f l st = Except.ok ys → b ∈ ys →
      ∃ a ∈ l, ∃ s1 s2, f a s1 = Except.ok (b, s2) := by
  intro l
  induction l with
  | nil =>
    intro st ys h hb
    simp only [mapES] at h
    cases h
    cases hb
  | cons a l ih =>
    intro st ys h hb
    simp only [mapES] at h
    cases hfa : f a st with
    | error e => simp only [hfa] at h; cases h
    | ok p =>
      simp only [hfa] at h
      cases hml : mapES f l p.2 with
      | error e => simp only [hml] at h; cases h
      | ok rest =>
        simp only [hml] at h
        cases h
        rcases List.mem_cons.mp hb with rfl | hb'
        · exact ⟨a, List.mem_cons_self _ _, st, p.2, hfa⟩
        · rcases ih hml hb' with ⟨a', ha', s1, s2, hf⟩
          exact ⟨a', List.mem_cons_of_mem _ ha', s1, s2, hf⟩

/-! ### Characterizations of the per-row computations -/

theorem sensorRow_ok_elim {net : Network} {sp : ℚ → ℚ} {t : ℤ} {s : Node}
    {ν : ℕ → ℚ} {bp bp' : Option ℚ} {r : SensorRecord}
    (h : sensorRow net sp t s ν bp = Except.ok (r, bp')) :
    ∃ st att, s.sensor_type = some st ∧ s.attached_to = some att ∧
      sensorValue net sp t st att ν bp = Except.ok (r.value, bp') ∧
      r.timestamp = t ∧ r.sensor_id = s.id ∧ r.attached_to = att ∧ r.sensor_type = st := by
  cases hst : s.sensor_type with
  | none => simp [sensorRow, getAttr, hst] at h
  | some st =>
    cases hatt : s.attached_to with
    | none => simp [sensorRow, getAttr, hst, hatt] at h
    | some att =>
      cases hv : sensorValue net sp t st att ν bp with
      | error e => simp [sensorRow, getAttr, hst, hatt, hv] at h
      | ok v =>
        simp only [sensorRow, getAttr, hst, hatt, hv] at h
        cases h
        exact ⟨st, att, rfl, rfl, hv, rfl, rfl, rfl, rfl⟩

theorem sensorRow_ok_intro {net : Network} {sp : ℚ → ℚ} {t : ℤ} {s : Node}
    {ν : ℕ → ℚ} {bp bp' : Option ℚ} {st att : String} {v : ℚ}
    (hst : s.sensor_type = some st) (hatt : s.attached_to = some att)
    (hv : sensorValue net sp t st att ν bp = Except.ok (v, bp')) :
    sensorRow net sp t s ν bp = Except.ok (⟨t, s.id, att, st, v⟩, bp') := by
  simp only [sensorRow, getAttr, hst, hatt, hv]

theorem consumptionRow_ok_elim {sp : ℚ → ℚ} {t : ℤ} {z : Node} {ν : ℚ}
    {r : ConsumptionRecord} (h : consumptionRow sp t z ν = Except.ok r) :
    ∃ bd dp, z.base_demand = some bd ∧ z.demand_profile = some dp ∧
      r = ⟨t, z.id,
        max 0 (bd * dailyFactor dp (hourOf t) (weekdayOf t) *
          (1 + 0.2 * sp (((dayOfYearOf t : ℚ) - 170) / 365)) + 2 * ν)⟩ := by
  cases hbd : z.base_demand with
  | none => simp [consumptionRow, getAttr, hbd] at h
  | some bd =>
    cases hdp : z.demand_profile with
    | none => simp [consumptionRow, getAttr, hbd, hdp] at h
    | some dp =>
      simp only [consumptionRow, getAttr, hbd, hdp] at h
      cases h
      exact ⟨bd, dp, rfl, rfl, rfl⟩

theorem consumptionRow_ok_intro {sp : ℚ → ℚ} {t : ℤ} {z : Node} {ν : ℚ}
    {bd : ℚ} {dp : String}
    (hbd : z.base_demand = some bd) (hdp : z.demand_profile = some dp) :
    consumptionRow sp t z ν = Except.ok ⟨t, z.id,
      max 0 (bd * dailyFactor dp (hourOf t) (weekdayOf t) *
        (1 + 0.2 * sp (((dayOfYearOf t : ℚ) - 170) / 365)) + 2 * ν)⟩ := by
  simp only [consumptionRow, getAttr, hbd, hdp]

end WaterSim

namespace WaterSim

/-! ### Bounds on timestamp components -/

theorem hourOf_nonneg (t : ℤ) : 0 ≤ hourOf t := Int.emod_nonneg _ (by norm_num)

theorem hourOf_lt (t : ℤ) : hourOf t < 24 := Int.emod_lt_of_pos _ (by norm_num)

theorem weekdayOf_nonneg (t : ℤ) : 0 ≤ weekdayOf t := Int.emod_nonneg _ (by norm_num)

theorem weekdayOf_lt (t : ℤ) : weekdayOf t < 7 := Int.emod_lt_of_pos _ (by norm_num)

/-! ### Value analysis of the per-record synthesis -/

theorem sensorValue_ok_nonneg {net : Network} {sp : ℚ → ℚ} {t : ℤ} {st att : String}
    {ν : ℕ → ℚ} {bp bp' : Option ℚ} {v : ℚ}
    (h : sensorValue net sp t st att ν bp = Except.ok (v, bp')) : 0 ≤ v := by
  unfold sensorValue at h
  split at h
  · split at h
    · cases h
    · cases h; exact le_max_left 0 _
  · split at h
    · split at h
      · cases h
      · cases h; exact le_max_left 0 _
    · split at h
      · split at h
        · split at h
          · cases h
          · split at h
            · cases h
            · split at h
              · cases h
              · cases h; exact le_max_left 0 _
        · cases h; exact le_rfl
      · cases h; exact le_rfl

theorem sensorValue_level_le_cap {net : Network} {sp : ℚ → ℚ} {t : ℤ} {att : String}
    {ν : ℕ → ℚ} {bp bp' : Option ℚ} {v : ℚ} {r1 : Node} {cap : ℚ}
    (hr1 : net.findNode "R1" = some r1) (hcap : r1.capacity = some cap) (h0 : 0 ≤ cap)
    (h : sensorValue net sp t "Level" att ν bp = Except.ok (v, bp')) : v ≤ cap := by
  have hflow : ("Level" : String) ≠ "Flow" := by decide
  have hpress : ("Level" : String) ≠ "Pressure" := by decide
  rw [sensorValue, if_neg hflow, if_neg hpress, if_pos rfl] at h
  by_cases hatt : att = "R1"
  · rw [if_pos hatt] at h
    cases hlvl : r1.current_level with
    | none => simp [getNode, getAttr, hr1, hlvl] at h
    | some lvl =>
      simp only [getNode, getAttr, hr1, hlvl, hcap] at h
      cases h
      exact max_le h0 (min_le_left _ _)
  · rw [if_neg hatt] at h
    cases h
    exact h0

theorem sensorValue_level_not_R1 {net : Network} {sp : ℚ → ℚ} {t : ℤ} {att : String}
    {ν : ℕ → ℚ} {bp : Option ℚ} (hatt : att ≠ "R1") :
    sensorValue net sp t "Level" att ν bp = Except.ok (0, bp) := by
  have hflow : ("Level" : String) ≠ "Flow" := by decide
  have hpress : ("Level" : String) ≠ "Pressure" := by decide
  rw [sensorValue, if_neg hflow, if_neg hpress, if_pos rfl, if_neg hatt]

theorem sensorValue_unknown_type {net : Network} {sp : ℚ → ℚ} {t : ℤ} {st att : String}
    {ν : ℕ → ℚ} {bp : Option ℚ}
    (h1 : st ≠ "Flow") (h2 : st ≠ "Pressure") (h3 : st ≠ "Level") :
    sensorValue net sp t st att ν bp = Except.ok (0, bp) := by
  rw [sensorValue, if_neg h1, if_neg h2, if_neg h3]

theorem sensorValue_level_R1 {net : Network} {sp : ℚ → ℚ} {t : ℤ}
    {ν : ℕ → ℚ} {bp : Option ℚ} {r1 : Node} {lvl cap : ℚ}
    (hr1 : net.findNode "R1" = some r1) (hlvl : r1.current_level = some lvl)
    (hcap : r1.capacity = some cap) :
    sensorValue net sp t "Level" "R1" ν bp = Except.ok (max 0 (min cap
      (lvl + sp ((dayOfYearOf t : ℚ) / 365) * 50000 + 10000 * ν 0)), bp) := by
  have hflow : ("Level" : String) ≠ "Flow" := by decide
  have hpress : ("Level" : String) ≠ "Pressure" := by decide
  rw [sensorValue, if_neg hflow, if_neg hpress, if_pos rfl, if_pos rfl]
  simp only [getNode, getAttr, hr1, hlvl, hcap]

theorem sensorValue_pressure_unassigned {net : Network} {sp : ℚ → ℚ} {t : ℤ}
    {att : String} {ν : ℕ → ℚ} {an : Node} {ty : String}
    (han : net.findNode att = some an) (hty : an.type = some ty)
    (t1 : ty ≠ "ConsumptionZone") (t2 : ty ≠ "Junction") (t3 : ty ≠ "PumpStation")
    (t4 : ty ≠ "Reservoir") :
    sensorValue net sp t "Pressure" att ν none =
      Except.error "UnboundLocalError: base_pressure" := by
  have hflow : ("Pressure" : String) ≠ "Flow" := by decide
  rw [sensorValue, if_neg hflow, if_pos rfl]
  simp only [pressureBase, getNode, getAttr, han, hty, if_neg t1, if_neg t2, if_neg t3,
    if_neg t4]

theorem sensorValue_pressure_stale {net : Network} {sp : ℚ → ℚ} {t : ℤ}
    {att : String} {ν : ℕ → ℚ} {an : Node} {ty : String} (stale : ℚ)
    (han : net.findNode att = some an) (hty : an.type = some ty)
    (t1 : ty ≠ "ConsumptionZone") (t2 : ty ≠ "Junction") (t3 : ty ≠ "PumpStation")
    (t4 : ty ≠ "Reservoir") :
    sensorValue net sp t "Pressure" att ν (some stale) =
      Except.ok (max 0 (stale + 10000 * ν 0), some stale) := by
  have hflow : ("Pressure" : String) ≠ "Flow" := by decide
  rw [sensorValue, if_neg hflow, if_pos rfl]
  simp only [pressureBase, getNode, getAttr, han, hty, if_neg t1, if_neg t2, if_neg t3,
    if_neg t4]

theorem consumptionValue_nonneg {sp : ℚ → ℚ} {t : ℤ} {z : Node} {ν : ℚ}
    {r : ConsumptionRecord} (h : consumptionRow sp t z ν = Except.ok r) :
    0 ≤ r.consumption_liters_per_sec := by
  rcases consumptionRow_ok_elim h with ⟨bd, dp, _, _, rfl⟩
  exact le_max_left 0 _

/-! ### The downstream-demand loop computes the successor-zone sum -/

theorem downstreamDemandAux_ok {net : Network} :
    ∀ {l : List String} {acc dd : ℚ}, downstreamDemandAux net acc l = Except.ok dd →
      dd = acc + ((l.filter (fun nb =>
          match net.findNode nb with
          | some nd => nd.type == some "ConsumptionZone"
          | none => false)).filterMap (fun nb =>
          (net.findNode nb).bind (fun nd => nd.base_demand))).sum := by
  intro l
  induction l with
  | nil =>
    intro acc dd h
    simp only [downstreamDemandAux] at h
    cases h
    simp
  | cons nb rest ih =>
    intro acc dd h
    cases hf : net.findNode nb with
    | none => simp [downstreamDemandAux, getNode, hf] at h
    | some nd =>
      cases hty : nd.type with
      | none => simp [downstreamDemandAux, getNode, getAttr, hf, hty] at h
      | some ty =>
        by_cases hcz : ty = "ConsumptionZone"
        · subst hcz
          cases hbd : nd.base_demand with
          | none => simp [downstreamDemandAux, getNode, getAttr, hf, hty, hbd] at h
          | some bd =>
            simp only [downstreamDemandAux, getNode, getAttr, hf, hty, hbd,
              eq_self_iff_true, if_true] at h
            have hrec := ih h
            simp only [List.filter_cons, hf, hty, beq_self_eq_true, eq_self_iff_true,
              if_true, List.filterMap_cons, Option.some_bind, hbd, List.sum_cons]
            rw [hrec]
            ring
        · simp only [downstreamDemandAux, getNode, getAttr, hf, hty, if_neg hcz] at h
          have hrec := ih h
          simp only [List.filter_cons, hf, hty]
          have hne : (some ty == some "ConsumptionZone") = false := by
            simp [hcz]
          rw [hne]
          simpa using hrec

end WaterSim

namespace WaterSim

theorem dailyFactorBase_res {h : ℤ} (h0 : 0 ≤ h) (h24 : h < 24) :
    dailyFactorBase "residential" h = specHourFactor "residential" h := by
  simp only [dailyFactorBase, specHourFactor, String.reduceEq, if_true, if_false,
    eq_self_iff_true, reduceIte]
  split_ifs <;> first | rfl | omega

theorem dailyFactorBase_com {h : ℤ} (h0 : 0 ≤ h) (h24 : h < 24) :
    dailyFactorBase "commercial" h = specHourFactor "commercial" h := by
  simp only [dailyFactorBase, specHourFactor, String.reduceEq, if_true, if_false,
    eq_self_iff_true, reduceIte]
  split_ifs <;> first | rfl | omega

theorem dailyFactorBase_ind {h : ℤ} (h0 : 0 ≤ h) (h24 : h < 24) :
    dailyFactorBase "industrial" h = specHourFactor "industrial" h := by
  simp only [dailyFactorBase, specHourFactor, String.reduceEq, if_true, if_false,
    eq_self_iff_true, reduceIte]
  split_ifs <;> first | rfl | omega

theorem dailyFactor_eq_spec {p : String}
    (hp : p = "residential" ∨ p = "commercial" ∨ p = "industrial")
    {h w : ℤ} (h0 : 0 ≤ h) (h24 : h < 24) (w0 : 0 ≤ w) (w7 : w < 7) :
    dailyFactor p h w = specHourFactor p h * specWeekendFactor p w := by
  have hb : dailyFactorBase p h = specHourFactor p h := by
    rcases hp with rfl | rfl | rfl
    · exact dailyFactorBase_res h0 h24
    · exact dailyFactorBase_com h0 h24
    · exact dailyFactorBase_ind h0 h24
  by_cases hw : 5 ≤ w
  · have hw56 : w = 5 ∨ w = 6 := by omega
    rcases hp with rfl | rfl | rfl <;>
      simp only [dailyFactor, specWeekendFactor, String.reduceEq, if_pos hw, if_pos hw56,
        false_or, or_false, or_self, if_true, if_false, reduceIte, hb]
  · have hw56 : ¬(w = 5 ∨ w = 6) := by omega
    rcases hp with rfl | rfl | rfl <;>
      simp only [dailyFactor, specWeekendFactor, if_neg hw, if_neg hw56, hb, mul_one]

end WaterSim

namespace WaterSim

/-! ### Correctness of the ancestors computation -/

theorem subset_reflAncStep (net : Network) (S : Finset String) : S ⊆ reflAncStep net S :=
  Finset.subset_union_left

theorem mem_reflAncStep {net : Network} {S : Finset String} {x : String} :
    x ∈ reflAncStep net S ↔ x ∈ S ∨ ∃ y, (x, y) ∈ net.edges ∧ y ∈ S := by
  simp only [reflAncStep, Finset.mem_union, List.mem_toFinset, List.mem_map, List.mem_filter,
    decide_eq_true_eq]
  constructor
  · rintro (hx | ⟨e, ⟨he, hmem⟩, rfl⟩)
    · exact Or.inl hx
    · exact Or.inr ⟨e.2, by simpa using he, hmem⟩
  · rintro (hx | ⟨y, he, hy⟩)
    · exact Or.inl hx
    · exact Or.inr ⟨(x, y), ⟨he, hy⟩, rfl⟩

theorem iterate_reflAncStep_sound (net : Network) (leak : String) :
    ∀ (n : ℕ) (x : String), x ∈ (reflAncStep net)^[n] {leak} →
      Relation.ReflTransGen (edgeRel net) x leak := by
  intro n
  induction n with
  | zero =>
    intro x hx
    rw [Function.iterate_zero_apply, Finset.mem_singleton] at hx
    subst hx
    exact Relation.ReflTransGen.refl
  | succ n ih =>
    intro x hx
    rw [Function.iterate_succ_apply'] at hx
    rcases mem_reflAncStep.mp hx with hx' | ⟨y, he, hy⟩
    · exact ih x hx'
    · exact Relation.ReflTransGen.head he (ih y hy)

theorem singleton_subset_iterate (net : Network) (leak : String) :
    ∀ n : ℕ, ({leak} : Finset String) ⊆ (reflAncStep net)^[n] {leak} := by
  intro n
  induction n with
  | zero => exact subset_rfl
  | succ n ih =>
    rw [Function.iterate_succ_apply']
    exact ih.trans (subset_reflAncStep net _)

theorem iterate_subset_universe (net : Network) (leak : String) :
    ∀ n : ℕ, (reflAncStep net)^[n] {leak} ⊆ insert leak (edgeSources net) := by
  intro n
  induction n with
  | zero =>
    intro x hx
    rw [Function.iterate_zero_apply, Finset.mem_singleton] at hx
    subst hx
    exact Finset.mem_insert_self _ _
  | succ n ih =>
    rw [Function.iterate_succ_apply']
    intro x hx
    rcases mem_reflAncStep.mp hx with hx' | ⟨y, he, _⟩
    · exact ih hx'
    · refine Finset.mem_insert_of_mem ?_
      rw [edgeSources, List.mem_toFinset, List.mem_map]
      exact ⟨(x, y), he, rfl⟩

theorem exists_iterate_fixed (net : Network) (leak : String) :
    ∃ k ≤ net.edges.length,
      reflAncStep net ((reflAncStep net)^[k] {leak}) = (reflAncStep net)^[k] {leak} := by
  by_contra hcon
  push_neg at hcon
  have grow : ∀ n : ℕ, n ≤ net.edges.length + 1 →
      n + 1 ≤ ((reflAncStep net)^[n] {leak}).card := by
    intro n
    induction n with
    | zero => intro _; simp
    | succ n ih =>
      intro hn
      have h1 : n + 1 ≤ ((reflAncStep net)^[n] {leak}).card := ih (by omega)
      have hne := hcon n (by omega)
      have hss : (reflAncStep net)^[n] {leak} ⊂
          reflAncStep net ((reflAncStep net)^[n] {leak}) :=
        Finset.ssubset_iff_subset_ne.mpr ⟨subset_reflAncStep net _, fun hEq => hne hEq.symm⟩
      have hlt := Finset.card_lt_card hss
      rw [Function.iterate_succ_apply']
      omega
  have hbound := grow (net.edges.length + 1) le_rfl
  have hsub := iterate_subset_universe net leak (net.edges.length + 1)
  have hcard := Finset.card_le_card hsub
  have huniv : (insert leak (edgeSources net)).card ≤ net.edges.length + 1 := by
    have h1 : (insert leak (edgeSources net)).card ≤ (edgeSources net).card + 1 :=
      Finset.card_insert_le _ _
    have h2 : (edgeSources net).card ≤ net.edges.length := by
      calc (edgeSources net).card ≤ (net.edges.map Prod.fst).length :=
            List.toFinset_card_le _
        _ = net.edges.length := List.length_map _ _
    omega
  omega

theorem iterate_fixed_ge {net : Network} {leak : String} {k : ℕ}
    (hfix : reflAncStep net ((reflAncStep net)^[k] {leak}) = (reflAncStep net)^[k] {leak}) :
    ∀ d : ℕ, (reflAncStep net)^[k + d] {leak} = (reflAncStep net)^[k] {leak} := by
  intro d
  induction d with
  | zero => rfl
  | succ d ih =>
    have hs : k + (d + 1) = (k + d) + 1 := by omega
    rw [hs, Function.iterate_succ_apply', ih, hfix]

theorem reflAnc_fixed (net : Network) (leak : String) :
    reflAncStep net (reflAnc net leak) = reflAnc net leak := by
  obtain ⟨k, hk, hfix⟩ := exists_iterate_fixed net leak
  have h1 : reflAnc net leak = (reflAncStep net)^[k] {leak} := by
    have hsplit : net.edges.length + 1 = k + (net.edges.length + 1 - k) := by omega
    rw [reflAnc, hsplit, iterate_fixed_ge hfix]
  rw [h1, hfix]

theorem mem_reflAnc_complete {net : Network} {leak x : String}
    (h : Relation.ReflTransGen (edgeRel net) x leak) : x ∈ reflAnc net leak := by
  induction h using Relation.ReflTransGen.head_induction_on with
  | refl => exact singleton_subset_iterate net leak _ (Finset.mem_singleton_self leak)
  | head h' _ ih =>
    rw [← reflAnc_fixed net leak]
    exact mem_reflAncStep.mpr (Or.inr ⟨_, h', ih⟩)

theorem mem_reflAnc_iff {net : Network} {leak x : String} :
    x ∈ reflAnc net leak ↔ Relation.ReflTransGen (edgeRel net) x leak :=
  ⟨iterate_reflAncStep_sound net leak _ x, mem_reflAnc_complete⟩

/-- The computed `nx.ancestors` set is exactly the set of nodes with a
directed path (of length at least one) to the leak node. -/
theorem mem_ancestorsFin_iff {net : Network} {leak x : String} :
    x ∈ ancestorsFin net leak ↔ Relation.TransGen (edgeRel net) x leak := by
  rw [Relation.TransGen.head'_iff]
  simp only [ancestorsFin, List.mem_toFinset, List.mem_map, List.mem_filter,
    decide_eq_true_eq]
  constructor
  · rintro ⟨e, ⟨he, hmem⟩, rfl⟩
    exact ⟨e.2, by simpa [edgeRel] using he, mem_reflAnc_iff.mp hmem⟩
  · rintro ⟨y, he, hrt⟩
    exact ⟨(x, y), ⟨he, mem_reflAnc_iff.mpr hrt⟩, rfl⟩

end WaterSim

namespace WaterSim

/-! ### Helper: membership in a generated table -/

theorem generate_sensor_data_mem {net : Network} {sp : ℚ → ℚ} {startT endT iv : ℤ}
    {ν : ℕ → ℕ → ℕ → ℚ} {tab : List SensorRecord} {r : SensorRecord}
    (hok : generate_sensor_data net sp startT endT iv ν = Except.ok tab) (hr : r ∈ tab) :
    ∃ t s d bp bp', sensorRow net sp t s d bp = Except.ok (r, bp') := by
  rcases mapES_ok_mem hok hr with ⟨p, _, s1, s2, hp⟩
  exact ⟨p.1.2, p.2.2, _, s1, s2, hp⟩

theorem generate_consumption_data_mem {net : Network} {sp : ℚ → ℚ} {startT endT iv : ℤ}
    {ν : ℕ → ℕ → ℚ} {tab : List ConsumptionRecord} {r : ConsumptionRecord}
    (hok : generate_consumption_data net sp startT endT iv ν = Except.ok tab) (hr : r ∈ tab) :
    ∃ t z d, consumptionRow sp t z d = Except.ok r := by
  rcases Forall2_mem_right (mapE_ok_iff.mp hok) hr with ⟨p, _, hp⟩
  exact ⟨p.1.2, p.2.2, _, hp⟩

/-! ### Claim theorems -/

/-- C2 (amended): for a leak node id that is not a node of the network,
`inject_leak_event` is not a silent no-op: the `nx.ancestors` call raises
`NetworkXError`, which propagates to the caller and no table is
returned. -/
theorem C2_inject_missing_node_raises (sensor_df : List SensorRecord) (net : Network)
    (leak : String) (startT endT : ℤ) (severity : ℚ) (u : ℕ → ℚ)
    (h : net.hasNode leak = false) :
    inject_leak_event sensor_df net leak startT endT severity u =
      Except.error ("NetworkXError: The node " ++ leak ++ " is not in the graph.") := by
  have h' : ¬(net.hasNode leak = true) := by rw [h]; simp
  rw [inject_leak_event, if_neg h']

/-- C2 counterexample: injecting a leak at the absent node `"X"` of
`netBasic` raises `NetworkXError` instead of returning the (empty) table
unchanged. -/
theorem C2_missing_node_counterexample :
    netBasic.hasNode "X" = false ∧
    inject_leak_event [] netBasic "X" 0 1 (1/5) (fun _ => 0) =
      Except.error "NetworkXError: The node X is not in the graph." := by
  constructor
  · decide
  · rfl

/-- Witness for C2's amended theorem at a concrete absent node. -/
theorem C2_inject_missing_node_raises_witness :
    inject_leak_event dfPipe netBasic "Y" 0 1 (1/5) (fun _ => 0) =
      Except.error ("NetworkXError: The node " ++ "Y" ++ " is not in the graph.") :=
  C2_inject_missing_node_raises dfPipe netBasic "Y" 0 1 (1/5) (fun _ => 0) (by decide)

/-- C3 (amended): a sensor whose `sensor_type` is none of Flow, Pressure,
Level, and a Level sensor not attached to `'R1'`, silently yield value
0.0.  A Pressure sensor attached to a node whose type is none of the four
handled ones reads the function-local `base_pressure`: while the local is
still unassigned (no Pressure sensor with a handled attachment processed
earlier in the same call) this raises `UnboundLocalError`; once it was
assigned, the sensor silently reuses the stale base, producing
`max 0 (stale + noise)` — which is not the claimed 0.0. -/
theorem C3_uncovered_combinations :
    (∀ (net : Network) (sp : ℚ → ℚ) (startT endT iv : ℤ) (ν : ℕ → ℕ → ℕ → ℚ)
        (tab : List SensorRecord) (r : SensorRecord),
      generate_sensor_data net sp startT endT iv ν = Except.ok tab → r ∈ tab →
      r.sensor_type ≠ "Flow" → r.sensor_type ≠ "Pressure" →
      (r.sensor_type = "Level" → r.attached_to ≠ "R1") → r.value = 0) ∧
    (∀ (net : Network) (sp : ℚ → ℚ) (t : ℤ) (att : String) (ν : ℕ → ℚ) (an : Node)
        (ty : String),
      net.findNode att = some an → an.type = some ty →
      ty ≠ "ConsumptionZone" → ty ≠ "Junction" → ty ≠ "PumpStation" → ty ≠ "Reservoir" →
      sensorValue net sp t "Pressure" att ν none =
        Except.error "UnboundLocalError: base_pressure") ∧
    (∀ (net : Network) (sp : ℚ → ℚ) (t : ℤ) (att : String) (ν : ℕ → ℚ) (an : Node)
        (ty : String) (stale : ℚ),
      net.findNode att = some an → an.type = some ty →
      ty ≠ "ConsumptionZone" → ty ≠ "Junction" → ty ≠ "PumpStation" → ty ≠ "Reservoir" →
      sensorValue net sp t "Pressure" att ν (some stale) =
        Except.ok (max 0 (stale + 10000 * ν 0), some stale)) := by
  refine ⟨?_, ?_, ?_⟩
  · intro net sp startT endT iv ν tab r hok hr hf hp hl
    rcases generate_sensor_data_mem hok hr with ⟨t, s, d, bp, bp', hrow⟩
    rcases sensorRow_ok_elim hrow with ⟨st, att, _, _, hv, _, _, hatt, hst⟩
    subst hst
    subst hatt
    by_cases hlev : r.sensor_type = "Level"
    · rw [hlev] at hv
      rw [sensorValue_level_not_R1 (hl hlev)] at hv
      exact congrArg Prod.fst (Except.ok.inj hv) |>.symm
    · rw [sensorValue_unknown_type hf hp hlev] at hv
      exact congrArg Prod.fst (Except.ok.inj hv) |>.symm
  · intro net sp t att ν an ty han hty t1 t2 t3 t4
    exact sensorValue_pressure_unassigned han hty t1 t2 t3 t4
  · intro net sp t att ν an ty stale han hty t1 t2 t3 t4
    exact sensorValue_pressure_stale stale han hty t1 t2 t3 t4

/-- C3 counterexample: a lone Pressure sensor on a Valve node makes
`generate_sensor_data` raise instead of producing a 0.0-valued record;
and after a handled-type Pressure sensor in the same call, the same
uncovered combination completes silently with the stale base pressure
500000, not 0.0. -/
theorem C3_pressure_valve_counterexample :
    generate_sensor_data netValve (fun _ => 0) 0 0 5 (fun _ _ _ => 0) =
      Except.error "UnboundLocalError: base_pressure" ∧
    generate_sensor_data netStale (fun _ => 0) 0 0 5 (fun _ _ _ => 0) =
      Except.ok [⟨0, "SPJ", "J1", "Pressure", 500000⟩,
        ⟨0, "SPV", "V1", "Pressure", 500000⟩] ∧
    (500000 : ℚ) ≠ 0 := by
  refine ⟨rfl, ?_, by norm_num⟩
  have h : generate_sensor_data netStale (fun _ => 0) 0 0 5 (fun _ _ _ => 0) =
      Except.ok [⟨0, "SPJ", "J1", "Pressure", max 0 ((500000 : ℚ) + 10000 * 0)⟩,
        ⟨0, "SPV", "V1", "Pressure", max 0 ((500000 : ℚ) + 10000 * 0)⟩] := rfl
  rw [h]
  norm_num [max_def]

/-- Witness for C3's amended theorem: a Level sensor attached to the
reservoir `R2` (not `R1`) yields 0.0; a Pressure sensor attached to a
Valve raises while `base_pressure` is unassigned and reuses the stale
value 500000 once it was assigned. -/
theorem C3_uncovered_combinations_witness :
    (⟨0, "SL2", "R2", "Level", 0⟩ : SensorRecord).value = 0 ∧
    sensorValue netValve (fun _ => 0) 0 "Pressure" "V1" (fun _ => 0) none =
      Except.error "UnboundLocalError: base_pressure" ∧
    sensorValue netValve (fun _ => 0) 0 "Pressure" "V1" (fun _ => 0) (some 500000) =
      Except.ok (max 0 ((500000 : ℚ) + 10000 * 0), some 500000) := by
  refine ⟨?_, ?_, ?_⟩
  · exact C3_uncovered_combinations.1 netR2 (fun _ => 0) 0 0 5 (fun _ _ _ => 0)
      [⟨0, "SL2", "R2", "Level", 0⟩] ⟨0, "SL2", "R2", "Level", 0⟩
      (by rfl) (by decide) (by decide) (by decide) (fun _ => by decide)
  · exact C3_uncovered_combinations.2.1 netValve (fun _ => 0) 0 "V1" (fun _ => 0)
      ⟨"V1", some "Valve", none, none, none, none, none, none, none⟩ "Valve"
      (by decide) (by decide) (by decide) (by decide) (by decide) (by decide)
  · exact C3_uncovered_combinations.2.2 netValve (fun _ => 0) 0 "V1" (fun _ => 0)
      ⟨"V1", some "Valve", none, none, none, none, none, none, none⟩ "Valve" 500000
      (by decide) (by decide) (by decide) (by decide) (by decide) (by decide)

/-- C7: with `start = end` and a positive interval the sampling grid is
exactly the one timestamp `start`; with `start > end` the grid is empty
and both generators return an empty table. -/
theorem C7_boundary_grid :
    (∀ (s iv : ℤ), 0 < iv → timeIndex s s iv = [s]) ∧
    (∀ (s e iv : ℤ), e < s → timeIndex s e iv = []) ∧
    (∀ (net : Network) (sp : ℚ → ℚ) (s e iv : ℤ) (ν : ℕ → ℕ → ℕ → ℚ), e < s →
      generate_sensor_data net sp s e iv ν = Except.ok []) ∧
    (∀ (net : Network) (sp : ℚ → ℚ) (s e iv : ℤ) (ν : ℕ → ℕ → ℚ), e < s →
      generate_consumption_data net sp s e iv ν = Except.ok []) := by
  have hempty : ∀ (s e iv : ℤ), e < s → timeIndex s e iv = [] := by
    intro s e iv h
    rw [timeIndex, if_neg (by omega)]
  refine ⟨?_, hempty, ?_, ?_⟩
  · intro s iv _
    have h0 : ((s - s) / iv).toNat = 0 := by
      simp [sub_self, Int.zero_ediv]
    rw [timeIndex, if_pos le_rfl, h0]
    show List.map (fun (k : ℕ) => s + (k : ℤ) * iv) [0] = [s]
    simp
  · intro net sp s e iv ν h
    rw [generate_sensor_data, hempty s e iv h]
    rfl
  · intro net sp s e iv ν h
    rw [generate_consumption_data, hempty s e iv h]
    rfl

/-- Witness for C7 at concrete boundary inputs. -/
theorem C7_boundary_grid_witness :
    timeIndex 0 0 60 = [0] ∧ timeIndex 1 0 60 = [] ∧
    generate_sensor_data netBasic (fun _ => 0) 1 0 60 (fun _ _ _ => 0) = Except.ok [] ∧
    generate_consumption_data netBasic (fun _ => 0) 1 0 60 (fun _ _ => 0) = Except.ok [] :=
  ⟨C7_boundary_grid.1 0 60 (by decide), C7_boundary_grid.2.1 1 0 60 (by decide),
   C7_boundary_grid.2.2.1 netBasic (fun _ => 0) 1 0 60 (fun _ _ _ => 0) (by decide),
   C7_boundary_grid.2.2.2 netBasic (fun _ => 0) 1 0 60 (fun _ _ => 0) (by decide)⟩

/-- C9: with all noise draws replaced by zero (and the same holds for any
two noise sources in identical states, i.e. equal streams), repeated
generation with identical inputs yields identical tables. -/
theorem C9_deterministic_with_fixed_noise :
    ∀ (net : Network) (sp : ℚ → ℚ) (s e iv : ℤ) (ν₁ ν₂ : ℕ → ℕ → ℕ → ℚ)
      (μ₁ μ₂ : ℕ → ℕ → ℚ),
      (∀ a b c, ν₁ a b c = 0) → (∀ a b c, ν₂ a b c = 0) →
      (∀ a b, μ₁ a b = 0) → (∀ a b, μ₂ a b = 0) →
      generate_sensor_data net sp s e iv ν₁ = generate_sensor_data net sp s e iv ν₂ ∧
      generate_consumption_data net sp s e iv μ₁ = generate_consumption_data net sp s e iv μ₂ := by
  intro net sp s e iv ν₁ ν₂ μ₁ μ₂ h1 h2 h3 h4
  have hν : ν₁ = ν₂ := by
    funext a b c
    rw [h1, h2]
  have hμ : μ₁ = μ₂ := by
    funext a b
    rw [h3, h4]
  rw [hν, hμ]
  exact ⟨rfl, rfl⟩

/-- Witness for C9 with two (equal) all-zero noise streams. -/
theorem C9_deterministic_with_fixed_noise_witness :
    generate_sensor_data netBasic (fun _ => 0) 0 0 60 (fun _ _ _ => 0) =
      generate_sensor_data netBasic (fun _ => 0) 0 0 60 (fun _ _ _ => 0) ∧
    generate_consumption_data netBasic (fun _ => 0) 0 0 60 (fun _ _ => 0) =
      generate_consumption_data netBasic (fun _ => 0) 0 0 60 (fun _ _ => 0) :=
  C9_deterministic_with_fixed_noise netBasic (fun _ => 0) 0 0 60 _ _ _ _
    (fun _ _ _ => rfl) (fun _ _ _ => rfl) (fun _ _ => rfl) (fun _ _ => rfl)

end WaterSim

namespace WaterSim

/-- Concrete run: the one-sensor network generates a single clamped
reservoir-level record. -/
theorem run_netBasic_sensor :
    generate_sensor_data netBasic (fun _ => 0) 0 0 60 (fun _ _ _ => 0) =
      Except.ok [⟨0, "SL", "R1", "Level", 900000⟩] := by
  have h : generate_sensor_data netBasic (fun _ => 0) 0 0 60 (fun _ _ _ => 0) =
      Except.ok [⟨0, "SL", "R1", "Level",
        max 0 (min 1000000 ((900000 : ℚ) + 0 * 50000 + 10000 * 0))⟩] := rfl
  rw [h]
  norm_num [min_def, max_def]

/-- Concrete run: the one-zone network generates a single consumption
record of 50 L/s. -/
theorem run_netBasic_consumption :
    generate_consumption_data netBasic (fun _ => 0) 0 0 60 (fun _ _ => 0) =
      Except.ok [⟨0, "Z1", 50⟩] := by
  have h : generate_consumption_data netBasic (fun _ => 0) 0 0 60 (fun _ _ => 0) =
      Except.ok [⟨0, "Z1",
        max 0 ((100 : ℚ) * dailyFactor "residential" (hourOf 0) (weekdayOf 0) *
          (1 + 0.2 * 0) + 2 * 0)⟩] := rfl
  rw [h]
  have hh : hourOf 0 = 0 := by decide
  have hw : weekdayOf 0 = 3 := by decide
  rw [hh, hw]
  norm_num [dailyFactor, dailyFactorBase, max_def]

/-- C5: a successfully generated sensor table has exactly one row per
(grid timestamp, sensor node) pair — in particular grid-length times
sensor-count rows — and likewise the consumption table one row per
(grid timestamp, consumption zone) pair. -/
theorem C5_row_counts (net : Network) (sp : ℚ → ℚ) (startT endT iv : ℤ)
    (ν : ℕ → ℕ → ℕ → ℚ) (μ : ℕ → ℕ → ℚ) (tab : List SensorRecord)
    (ctab : List ConsumptionRecord)
    (hok : generate_sensor_data net sp startT endT iv ν = Except.ok tab)
    (hok2 : generate_consumption_data net sp startT endT iv μ = Except.ok ctab) :
    (tab.map (fun r => (r.timestamp, r.sensor_id)) =
      (timeIndex startT endT iv).flatMap
        (fun t => (sensorNodes net).map (fun sn => (t, sn.id)))) ∧
    tab.length = (timeIndex startT endT iv).length * (sensorNodes net).length ∧
    (ctab.map (fun r => (r.timestamp, r.zone_id)) =
      (timeIndex startT endT iv).flatMap
        (fun t => (consumptionZones net).map (fun z => (t, z.id)))) ∧
    ctab.length = (timeIndex startT endT iv).length * (consumptionZones net).length := by
  have hmap : tab.map (fun r => (r.timestamp, r.sensor_id)) =
      (timeIndex startT endT iv).flatMap
        (fun t => (sensorNodes net).map (fun sn => (t, sn.id))) := by
    have h1 := mapES_ok_map_congr (fun (r : SensorRecord) => (r.timestamp, r.sensor_id))
      (fun p => (p.1.2, p.2.2.id)) ?_ hok
    · rw [h1]
      exact map_pairs (timeIndex startT endT iv) (sensorNodes net)
        (fun t sn => (t, sn.id))
    · intro p s1 r s2 hp
      rcases sensorRow_ok_elim hp with ⟨st, att, _, _, _, hts, hid, _, _⟩
      simp only [hts, hid]
  have hmapc : ctab.map (fun r => (r.timestamp, r.zone_id)) =
      (timeIndex startT endT iv).flatMap
        (fun t => (consumptionZones net).map (fun z => (t, z.id))) := by
    have h1 := Forall2_map_eq (fun (r : ConsumptionRecord) => (r.timestamp, r.zone_id))
      (fun p => (p.1.2, p.2.2.id)) ?_ (mapE_ok_iff.mp hok2)
    · rw [h1]
      exact map_pairs (timeIndex startT endT iv) (consumptionZones net)
        (fun t z => (t, z.id))
    · intro p r hp
      rcases consumptionRow_ok_elim hp with ⟨bd, dp, _, _, rfl⟩
      rfl
  refine ⟨hmap, ?_, hmapc, ?_⟩
  · have := congrArg List.length hmap
    rw [List.length_map] at this
    rw [this, length_flatMap_map]
  · have := congrArg List.length hmapc
    rw [List.length_map] at this
    rw [this, length_flatMap_map]

/-- Witness for C5 on the small concrete network. -/
theorem C5_row_counts_witness :
    ([⟨0, "SL", "R1", "Level", 900000⟩] : List SensorRecord).map
        (fun r => (r.timestamp, r.sensor_id)) =
      (timeIndex 0 0 60).flatMap
        (fun t => (sensorNodes netBasic).map (fun sn => (t, sn.id))) ∧
    ([⟨0, "SL", "R1", "Level", 900000⟩] : List SensorRecord).length =
      (timeIndex 0 0 60).length * (sensorNodes netBasic).length ∧
    ([⟨0, "Z1", 50⟩] : List ConsumptionRecord).map (fun r => (r.timestamp, r.zone_id)) =
      (timeIndex 0 0 60).flatMap
        (fun t => (consumptionZones netBasic).map (fun z => (t, z.id))) ∧
    ([⟨0, "Z1", 50⟩] : List ConsumptionRecord).length =
      (timeIndex 0 0 60).length * (consumptionZones netBasic).length :=
  C5_row_counts netBasic (fun _ => 0) 0 0 60 (fun _ _ _ => 0) (fun _ _ => 0)
    [⟨0, "SL", "R1", "Level", 900000⟩] [⟨0, "Z1", 50⟩]
    run_netBasic_sensor run_netBasic_consumption

/-- C6: every value of a successfully generated sensor table is
non-negative; when the reservoir `R1` exists with a non-negative
capacity, every Level value is at most that capacity; and every
generated consumption value is non-negative. -/
theorem C6_value_bounds (net : Network) (sp : ℚ → ℚ) (startT endT iv : ℤ)
    (ν : ℕ → ℕ → ℕ → ℚ) (μ : ℕ → ℕ → ℚ) (tab : List SensorRecord)
    (ctab : List ConsumptionRecord)
    (hok : generate_sensor_data net sp startT endT iv ν = Except.ok tab)
    (hok2 : generate_consumption_data net sp startT endT iv μ = Except.ok ctab) :
    (∀ r ∈ tab, 0 ≤ r.value) ∧
    (∀ (r1 : Node) (cap : ℚ), net.findNode "R1" = some r1 → r1.capacity = some cap →
      0 ≤ cap → ∀ r ∈ tab, r.sensor_type = "Level" → r.value ≤ cap) ∧
    (∀ r ∈ ctab, 0 ≤ r.consumption_liters_per_sec) := by
  refine ⟨?_, ?_, ?_⟩
  · intro r hr
    rcases generate_sensor_data_mem hok hr with ⟨t, s, d, bp, bp', hrow⟩
    rcases sensorRow_ok_elim hrow with ⟨st, att, _, _, hv, _, _, _, _⟩
    exact sensorValue_ok_nonneg hv
  · intro r1 cap hr1 hcap h0 r hr hlev
    rcases generate_sensor_data_mem hok hr with ⟨t, s, d, bp, bp', hrow⟩
    rcases sensorRow_ok_elim hrow with ⟨st, att, _, _, hv, _, _, _, hst⟩
    rw [← hst, hlev] at hv
    exact sensorValue_level_le_cap hr1 hcap h0 hv
  · intro r hr
    rcases generate_consumption_data_mem hok2 hr with ⟨t, z, d, hrow⟩
    exact consumptionValue_nonneg hrow

/-- Witness for C6 on the small concrete network. -/
theorem C6_value_bounds_witness :
    (∀ r ∈ ([⟨0, "SL", "R1", "Level", 900000⟩] : List SensorRecord), 0 ≤ r.value) ∧
    (∀ (r1 : Node) (cap : ℚ), netBasic.findNode "R1" = some r1 → r1.capacity = some cap →
      0 ≤ cap → ∀ r ∈ ([⟨0, "SL", "R1", "Level", 900000⟩] : List SensorRecord),
        r.sensor_type = "Level" → r.value ≤ cap) ∧
    (∀ r ∈ ([⟨0, "Z1", 50⟩] : List ConsumptionRecord), 0 ≤ r.consumption_liters_per_sec) :=
  C6_value_bounds netBasic (fun _ => 0) 0 0 60 (fun _ _ _ => 0) (fun _ _ => 0)
    [⟨0, "SL", "R1", "Level", 900000⟩] [⟨0, "Z1", 50⟩]
    run_netBasic_sensor run_netBasic_consumption

end WaterSim

namespace WaterSim

/-- C8: for a consumption zone with one of the three named profiles, the
generated value is exactly base_demand × hour-bucket factor × weekend
multiplier × seasonal factor plus σ=2 Gaussian noise, floored at 0, with
the claim's exact bucket boundaries. -/
theorem C8_consumption_formula (sp : ℚ → ℚ) (t : ℤ) (z : Node) (ν : ℚ)
    (bd : ℚ) (p : String)
    (hbd : z.base_demand = some bd) (hdp : z.demand_profile = some p)
    (hp : p = "residential" ∨ p = "commercial" ∨ p = "industrial") :
    consumptionRow sp t z ν = Except.ok ⟨t, z.id,
      specConsumptionValue bd p (hourOf t) (weekdayOf t)
        (1 + 0.2 * sp (((dayOfYearOf t : ℚ) - 170) / 365)) ν⟩ := by
  rw [consumptionRow_ok_intro hbd hdp]
  have hval : max 0 (bd * dailyFactor p (hourOf t) (weekdayOf t) *
        (1 + 0.2 * sp (((dayOfYearOf t : ℚ) - 170) / 365)) + 2 * ν) =
      specConsumptionValue bd p (hourOf t) (weekdayOf t)
        (1 + 0.2 * sp (((dayOfYearOf t : ℚ) - 170) / 365)) ν := by
    rw [specConsumptionValue, dailyFactor_eq_spec hp (hourOf_nonneg t) (hourOf_lt t)
      (weekdayOf_nonneg t) (weekdayOf_lt t)]
    congr 1
    ring
  rw [hval]

/-- Witness for C8 at the residential zone `Z1` and the epoch timestamp. -/
theorem C8_consumption_formula_witness :
    consumptionRow (fun _ => 0) 0 zoneZ1 0 = Except.ok ⟨0, zoneZ1.id,
      specConsumptionValue 100 "residential" (hourOf 0) (weekdayOf 0)
        (1 + 0.2 * (fun (_ : ℚ) => (0 : ℚ)) (((dayOfYearOf 0 : ℚ) - 170) / 365)) 0⟩ :=
  C8_consumption_formula (fun _ => 0) 0 zoneZ1 0 100 "residential" rfl rfl (Or.inl rfl)

/-- C10: Level synthesis is keyed to the literal node id `'R1'`: a Level
sensor attached to any other node (even a Reservoir) always yields value
0.0, and for the sensor attached to `'R1'` the level formula reads
`current_level` and `capacity` from node `'R1'`. -/
theorem C10_level_keyed_to_R1 :
    (∀ (net : Network) (sp : ℚ → ℚ) (startT endT iv : ℤ) (ν : ℕ → ℕ → ℕ → ℚ)
        (tab : List SensorRecord) (r : SensorRecord),
      generate_sensor_data net sp startT endT iv ν = Except.ok tab → r ∈ tab →
      r.sensor_type = "Level" → r.attached_to ≠ "R1" → r.value = 0) ∧
    (∀ (net : Network) (sp : ℚ → ℚ) (t : ℤ) (s : Node) (ν : ℕ → ℚ) (bp : Option ℚ)
        (r1 : Node) (lvl cap : ℚ),
      s.sensor_type = some "Level" → s.attached_to = some "R1" →
      net.findNode "R1" = some r1 → r1.current_level = some lvl → r1.capacity = some cap →
      sensorRow net sp t s ν bp = Except.ok (⟨t, s.id, "R1", "Level",
        max 0 (min cap (lvl + sp ((dayOfYearOf t : ℚ) / 365) * 50000 + 10000 * ν 0))⟩,
        bp)) := by
  constructor
  · intro net sp startT endT iv ν tab r hok hr hlev hne
    rcases generate_sensor_data_mem hok hr with ⟨t, s, d, bp, bp', hrow⟩
    rcases sensorRow_ok_elim hrow with ⟨st, att, _, _, hv, _, _, hatt, hst⟩
    subst hst
    subst hatt
    rw [hlev] at hv
    rw [sensorValue_level_not_R1 hne] at hv
    exact congrArg Prod.fst (Except.ok.inj hv) |>.symm
  · intro net sp t s ν bp r1 lvl cap hst hatt hr1 hlvl hcap
    exact sensorRow_ok_intro hst hatt (sensorValue_level_R1 hr1 hlvl hcap)

/-- Witness for C10: on `netR2` the Level sensor attached to reservoir
`R2` reads 0, and on `netBasic` the `R1` level sensor obeys the clamped
formula. -/
theorem C10_level_keyed_to_R1_witness :
    (⟨0, "SL2", "R2", "Level", 0⟩ : SensorRecord).value = 0 ∧
    sensorRow netBasic (fun _ => 0) 0
        ⟨"SL", some "Sensor", some "Level", some "R1", none, none, none, none, none⟩
        (fun _ => 0) none =
      Except.ok (⟨0, "SL", "R1", "Level",
        max 0 (min 1000000 (900000 + (fun (_ : ℚ) => (0 : ℚ)) ((dayOfYearOf 0 : ℚ) / 365)
          * 50000 + 10000 * 0))⟩, none) :=
  ⟨C10_level_keyed_to_R1.1 netR2 (fun _ => 0) 0 0 5 (fun _ _ _ => 0)
      [⟨0, "SL2", "R2", "Level", 0⟩] ⟨0, "SL2", "R2", "Level", 0⟩
      (by rfl) (by decide) (by decide) (by decide),
   C10_level_keyed_to_R1.2 netBasic (fun _ => 0) 0
      ⟨"SL", some "Sensor", some "Level", some "R1", none, none, none, none, none⟩
      (fun _ => 0) none ⟨"R1", some "Reservoir", none, none, none, none, none,
        some 900000, some 1000000⟩ 900000 1000000 rfl rfl (by decide) rfl rfl⟩

end WaterSim

namespace WaterSim

/-- C4 (amended): for a Flow sensor on a Junction node the base flow is
the successor-ConsumptionZone `base_demand` sum exactly when that sum is
positive, and the fixed default 150 whenever the sum is not positive —
in particular also when ConsumptionZone successors exist but their
demands sum to 0; for a Flow sensor attached to any node whose type is
neither ConsumptionZone nor Junction, the node's `pump_rate` (default 0)
is used. -/
theorem C4_flow_base (net : Network) (sp : ℚ → ℚ) (t : ℤ) (s : Node) (ν : ℕ → ℚ)
    (bp : Option ℚ) (att : String) (an : Node)
    (hst : s.sensor_type = some "Flow") (hatt : s.attached_to = some att)
    (han : net.findNode att = some an) :
    (∀ dd : ℚ, an.type = some "Junction" → downstreamDemand net att = Except.ok dd →
      dd = succCZSum net att ∧
      sensorRow net sp t s ν bp = Except.ok (⟨t, s.id, att, "Flow",
        max 0 ((if 0 < succCZSum net att then succCZSum net att else 150) *
          patternFactor (hourOf t) (ν 0) + 5 * ν 1)⟩, bp)) ∧
    (∀ ty : String, an.type = some ty → ty ≠ "ConsumptionZone" → ty ≠ "Junction" →
      sensorRow net sp t s ν bp = Except.ok (⟨t, s.id, att, "Flow",
        max 0 (an.pump_rate.getD 0 * patternFactor (hourOf t) (ν 0) + 5 * ν 1)⟩, bp)) := by
  constructor
  · intro dd hty hdd
    have hsum : dd = succCZSum net att := by
      have h1 := @downstreamDemandAux_ok net (net.successors att) 0 dd hdd
      rw [h1, zero_add]
      rfl
    refine ⟨hsum, ?_⟩
    have hfb : flowBase net att = Except.ok
        (if 0 < succCZSum net att then succCZSum net att else 150) := by
      simp only [flowBase, getNode, getAttr, han, hty, if_true, hdd]
      rw [hsum, if_neg (by decide : ¬("Junction" : String) = "ConsumptionZone")]
    apply sensorRow_ok_intro hst hatt
    rw [sensorValue, if_pos rfl, hfb]
  · intro ty hty h1 h2
    have hfb : flowBase net att = Except.ok (an.pump_rate.getD 0) := by
      simp only [flowBase, getNode, getAttr, han, hty]
      rw [if_neg h1, if_neg h2]
    apply sensorRow_ok_intro hst hatt
    rw [sensorValue, if_pos rfl, hfb]

/-- C4 counterexample: in `netZeroDemand` the junction `J` has the
ConsumptionZone successor `Z` with zero base demand, so the claim's rule
("sum when ConsumptionZone successors exist") prescribes base flow 0,
while the code computes base flow 150. -/
theorem C4_zero_demand_counterexample :
    czSuccessors netZeroDemand "J" = ["Z"] ∧
    succCZSum netZeroDemand "J" = 0 ∧
    claimedJunctionBaseFlow netZeroDemand "J" = 0 ∧
    flowBase netZeroDemand "J" = Except.ok 150 ∧
    (150 : ℚ) ≠ 0 := by
  have hsum : succCZSum netZeroDemand "J" = 0 := by
    have h : succCZSum netZeroDemand "J" = 0 + 0 := rfl
    rw [h]
    norm_num
  have hclaimed : claimedJunctionBaseFlow netZeroDemand "J" = 0 := by
    have h : claimedJunctionBaseFlow netZeroDemand "J" = succCZSum netZeroDemand "J" := rfl
    rw [h, hsum]
  have hdd : downstreamDemand netZeroDemand "J" = Except.ok 0 := by
    have h : downstreamDemand netZeroDemand "J" = Except.ok (0 + 0) := rfl
    rw [h]
    norm_num
  have hfb : flowBase netZeroDemand "J" = Except.ok 150 := by
    have h1 : Network.findNode netZeroDemand "J" =
        some ⟨"J", some "Junction", none, none, none, none, none, none, none⟩ := rfl
    simp only [flowBase, getNode, getAttr, h1, if_true, hdd]
    rw [if_neg (by norm_num : ¬(0 : ℚ) < 0),
      if_neg (by decide : ¬("Junction" : String) = "ConsumptionZone")]
  exact ⟨rfl, hsum, hclaimed, hfb, by norm_num⟩

/-- Witness for C4's amended theorem: the zero-demand junction uses the
150 default (sum not positive), and a pump-station attachment uses its
pump rate. -/
theorem C4_flow_base_witness :
    ((0 : ℚ) + 0 = succCZSum netZeroDemand "J" ∧
      sensorRow netZeroDemand (fun _ => 0) 0
          ⟨"SF", some "Sensor", some "Flow", some "J", none, none, none, none, none⟩
          (fun _ => 0) none =
        Except.ok (⟨0, "SF", "J", "Flow",
          max 0 ((if 0 < succCZSum netZeroDemand "J" then succCZSum netZeroDemand "J"
            else 150) * patternFactor (hourOf 0) 0 + 5 * 0)⟩, none)) ∧
    sensorRow netPipe (fun _ => 0) 0
        ⟨"SF1", some "Sensor", some "Flow", some "P1", none, none, none, none, none⟩
        (fun _ => 0) none =
      Except.ok (⟨0, "SF1", "P1", "Flow",
        max 0 ((⟨"P1", some "PumpStation", none, none, none, none, some 500, none,
          none⟩ : Node).pump_rate.getD 0 * patternFactor (hourOf 0) 0 + 5 * 0)⟩, none) :=
  ⟨(C4_flow_base netZeroDemand (fun _ => 0) 0
      ⟨"SF", some "Sensor", some "Flow", some "J", none, none, none, none, none⟩
      (fun _ => 0) none "J"
      ⟨"J", some "Junction", none, none, none, none, none, none, none⟩
      rfl rfl rfl).1 (0 + 0) rfl rfl,
   (C4_flow_base netPipe (fun _ => 0) 0
      ⟨"SF1", some "Sensor", some "Flow", some "P1", none, none, none, none, none⟩
      (fun _ => 0) none "P1"
      ⟨"P1", some "PumpStation", none, none, none, none, some 500, none, none⟩
      rfl rfl rfl).2 "PumpStation" rfl (by decide) (by decide)⟩

end WaterSim

namespace WaterSim

theorem mapIdxAux_length {α β : Type} (f : ℕ → α → β) :
    ∀ (n : ℕ) (l : List α), (mapIdxAux f n l).length = l.length := by
  intro n l
  induction l generalizing n with
  | nil => rfl
  | cons a l ih => simp [mapIdxAux, ih]

theorem mapIdxAux_get {α β : Type} (f : ℕ → α → β) :
    ∀ (n : ℕ) (l : List α) (i : ℕ) (hi : i < l.length)
      (hi' : i < (mapIdxAux f n l).length),
      (mapIdxAux f n l).get ⟨i, hi'⟩ = f (n + i) (l.get ⟨i, hi⟩) := by
  intro n l
  induction l generalizing n with
  | nil =>
    intro i hi
    exact absurd hi (by simp)
  | cons a l ih =>
    intro i hi hi'
    cases i with
    | zero => simp [mapIdxAux]
    | succ i =>
      have hstep : n + (i + 1) = (n + 1) + i := by omega
      simp only [mapIdxAux, List.get_cons_succ, hstep]
      exact ih (n + 1) i (by simpa using hi) (by simpa [mapIdxAux] using hi')

/-- C1: for a leak node that is in the network, injection returns a table
of the same length in which exactly the in-window Flow/Pressure rows
attached to the leak node or to a node with a directed path to it are
rescaled — Flow by `1 + severity·u i`, Pressure by `1 − severity·u i`,
with `u i` the row's own fresh uniform draw — and every other row equals
the corresponding pre-injection row. -/
theorem C1_inject_leak_event_spec (df : List SensorRecord) (net : Network)
    (leak : String) (startT endT : ℤ) (sev : ℚ) (u : ℕ → ℚ)
    (h : net.hasNode leak = true) :
    ∃ out, inject_leak_event df net leak startT endT sev u = Except.ok out ∧
      out.length = df.length ∧
      ∀ i (hi : i < df.length) (hi' : i < out.length),
        (leakCond net leak startT endT "Flow" (df.get ⟨i, hi⟩) →
          out.get ⟨i, hi'⟩ = setValue (df.get ⟨i, hi⟩)
            ((df.get ⟨i, hi⟩).value * (1 + sev * u i))) ∧
        (leakCond net leak startT endT "Pressure" (df.get ⟨i, hi⟩) →
          out.get ⟨i, hi'⟩ = setValue (df.get ⟨i, hi⟩)
            ((df.get ⟨i, hi⟩).value * (1 - sev * u i))) ∧
        (¬leakCond net leak startT endT "Flow" (df.get ⟨i, hi⟩) →
          ¬leakCond net leak startT endT "Pressure" (df.get ⟨i, hi⟩) →
          out.get ⟨i, hi'⟩ = df.get ⟨i, hi⟩) := by
  rw [inject_leak_event, if_pos h]
  refine ⟨_, rfl, mapIdxAux_length _ 0 df, ?_⟩
  intro i hi hi'
  have hmem : ∀ a : String, (a ∈ ancestorsFin net leak ∨ a = leak) ↔
      (a = leak ∨ Relation.TransGen (edgeRel net) a leak) := by
    intro a
    rw [mem_ancestorsFin_iff]
    tauto
  rw [mapIdxAux_get _ 0 df i hi hi', Nat.zero_add]
  set r := df.get ⟨i, hi⟩ with hr
  refine ⟨?_, ?_, ?_⟩
  · rintro ⟨hw, hty, hreach⟩
    rw [if_pos hw, if_pos ⟨hty, (hmem r.attached_to).mpr hreach⟩]
  · rintro ⟨hw, hty, hreach⟩
    have hne : ¬(r.sensor_type = "Flow" ∧
        (r.attached_to ∈ ancestorsFin net leak ∨ r.attached_to = leak)) := by
      rintro ⟨h1, _⟩
      rw [hty] at h1
      exact absurd h1 (by decide)
    rw [if_pos hw, if_neg hne, if_pos ⟨hty, (hmem r.attached_to).mpr hreach⟩]
  · intro hnf hnp
    by_cases hw : startT ≤ r.timestamp ∧ r.timestamp ≤ endT
    · have h1 : ¬(r.sensor_type = "Flow" ∧
          (r.attached_to ∈ ancestorsFin net leak ∨ r.attached_to = leak)) := by
        rintro ⟨ht, hx⟩
        exact hnf ⟨hw, ht, (hmem r.attached_to).mp hx⟩
      have h2 : ¬(r.sensor_type = "Pressure" ∧
          (r.attached_to ∈ ancestorsFin net leak ∨ r.attached_to = leak)) := by
        rintro ⟨ht, hx⟩
        exact hnp ⟨hw, ht, (hmem r.attached_to).mp hx⟩
      rw [if_pos hw, if_neg h1, if_neg h2]
    · rw [if_neg hw]

/-- Witness for C1: injection on the pipe network at the existing node
`J1`. -/
theorem C1_inject_leak_event_spec_witness :
    ∃ out, inject_leak_event dfPipe netPipe "J1" 0 10 (3/10) (fun _ => 1) =
        Except.ok out ∧
      out.length = dfPipe.length ∧
      ∀ i (hi : i < dfPipe.length) (hi' : i < out.length),
        (leakCond netPipe "J1" 0 10 "Flow" (dfPipe.get ⟨i, hi⟩) →
          out.get ⟨i, hi'⟩ = setValue (dfPipe.get ⟨i, hi⟩)
            ((dfPipe.get ⟨i, hi⟩).value * (1 + (3/10) * 1))) ∧
        (leakCond netPipe "J1" 0 10 "Pressure" (dfPipe.get ⟨i, hi⟩) →
          out.get ⟨i, hi'⟩ = setValue (dfPipe.get ⟨i, hi⟩)
            ((dfPipe.get ⟨i, hi⟩).value * (1 - (3/10) * 1))) ∧
        (¬leakCond netPipe "J1" 0 10 "Flow" (dfPipe.get ⟨i, hi⟩) →
          ¬leakCond netPipe "J1" 0 10 "Pressure" (dfPipe.get ⟨i, hi⟩) →
          out.get ⟨i, hi'⟩ = dfPipe.get ⟨i, hi⟩) :=
  C1_inject_leak_event_spec dfPipe netPipe "J1" 0 10 (3/10) (fun _ => 1) (by decide)

end WaterSim
